import Mathlib

/-!
Verification of `sc2reader/objects.py`.

The development shallowly embeds the parts of `objects.py` the claims
touch: the `MapInfo` binary descriptor decoder, the `Entity` slot
composition (toon-handle parsing, observer/referee flags), the
participant variants (`Observer` / `Computer` / `Participant`), the
`Team.hash` fingerprint, and `Attribute.__init__` resolution.

Byte buffers are modelled as `List Nat` (each element one byte), python
strings as `List Char` where kernel evaluation matters and `String`
elsewhere.  The byte-cursor primitives live in `sc2reader/decoders.py`,
which is not part of the sources under review; they are modelled from
the spec's external-interface section (little-endian fixed-width reads,
null-terminated strings, raw byte reads, truncation is a fatal fault).
-/

set_option maxRecDepth 8000

namespace SC2

/-- Modelled from the spec: `ByteDecoder.read_bytes(n)` — read exactly
`n` raw bytes from the cursor; a truncated buffer is a fatal decode
fault, modelled as `none`. -/
def readBytesN (n : Nat) (s : List Nat) : Option (List Nat × List Nat) :=
  if n ≤ s.length then some (s.take n, s.drop n) else none

/-- Little-endian value of a byte list (first byte least significant). -/
def leValue : List Nat → Nat
  | [] => 0
  | b :: rest => b + 256 * leValue rest

/-- Modelled from the spec: `ByteDecoder.read_uint32()` with the
decoder's fixed `LITTLE` endianness. -/
def readUInt32LE (s : List Nat) : Option (Nat × List Nat) :=
  (readBytesN 4 s).map (fun p => (leValue p.1, p.2))

/-- Modelled from the spec: `ByteDecoder.read_uint16()`. -/
def readUInt16LE (s : List Nat) : Option (Nat × List Nat) :=
  (readBytesN 2 s).map (fun p => (leValue p.1, p.2))

/-- Big-endian value of a byte list (first byte most significant). -/
def beValue (l : List Nat) : Nat :=
  l.foldl (fun acc b => acc * 256 + b) 0

/-- Modelled from the spec: `ByteDecoder.read_uint(n)` as used for the
relation matrices — `n` bytes interpreted as a single big-endian bit
sequence. -/
def readUIntBE (n : Nat) (s : List Nat) : Option (Nat × List Nat) :=
  (readBytesN n s).map (fun p => (beValue p.1, p.2))

/-- Modelled from the spec: `ByteDecoder.read_cstring()` — bytes up to
the null terminator; the terminator is consumed; a buffer with no
terminator is a truncation fault. -/
def readCString (s : List Nat) : Option (List Nat × List Nat) :=
  match s.dropWhile (fun b => b ≠ 0) with
  | 0 :: r => some (s.takeWhile (fun b => b ≠ 0), r)
  | _ => none

/-- The 4-byte magic signature `'MapI'` checked at `objects.py:508`. -/
def magicMapI : List Nat := [77, 97, 112, 73]

/-- Embedding of the two preview-descriptor reads
(`objects.py:524-538`): the path c-string is read when and only when
the type discriminant equals the custom sentinel `2`; otherwise the
path keeps its empty default and no bytes are consumed. -/
def readOptPath (ty : Nat) (s : List Nat) : Option (List Nat × List Nat) :=
  if ty = 2 then readCString s else some ([], s)

/-- Embedding of the loading-screen reads (`objects.py:567-571`): the
type discriminant is read, then the path c-string is read
unconditionally. -/
def readLoadScreen (s : List Nat) : Option ((Nat × List Nat) × List Nat) := do
  let (ty, s) ← readUInt32LE s
  let (path, s) ← readCString s
  pure ((ty, path), s)

/-- The decoded `MapInfo` object (`objects.py:499-711`).  Every field
that `MapInfo.__init__` may set is an `Option`, `none` meaning the
attribute was never assigned.  `base_height_raw` keeps the raw integer
that the source divides by 4096.  `players`, `alliance_flags_length`,
`alliance_flags`, `enemy_flags_length` and `enemy_flags` correspond to
the assignments at `objects.py:634-708`, which sit after the
unconditional `return` at line 632. -/
structure MapInfo where
  valid : Bool := false
  version : Option Nat := none
  unknown1 : Option Nat := none
  unknown2 : Option Nat := none
  width : Option Nat := none
  height : Option Nat := none
  small_preview_type : Option Nat := none
  small_preview_path : Option (List Nat) := none
  large_preview_type : Option Nat := none
  large_preview_path : Option (List Nat) := none
  unknown3 : Option (List Nat) := none
  unknown4 : Option Nat := none
  unknown5 : Option Nat := none
  fog_type : Option (List Nat) := none
  tile_set : Option (List Nat) := none
  camera_left : Option Nat := none
  camera_bottom : Option Nat := none
  camera_right : Option Nat := none
  camera_top : Option Nat := none
  base_height_raw : Option Nat := none
  load_screen_type : Option Nat := none
  load_screen_path : Option (List Nat) := none
  unknown6 : Option (List Nat) := none
  load_screen_scaling : Option Nat := none
  text_position : Option Nat := none
  text_position_offset_x : Option Nat := none
  text_position_offset_y : Option Nat := none
  text_position_size_x : Option Nat := none
  text_position_size_y : Option Nat := none
  data_flags : Option Nat := none
  unknown7 : Option Nat := none
  unknown8 : Option (List Nat) := none
  unknown9 : Option (List Nat) := none
  unknown10 : Option (List Nat) := none
  player_count : Option Nat := none
  players : Option (List Nat) := none
  alliance_flags_length : Option Nat := none
  alliance_flags : Option Nat := none
  enemy_flags_length : Option Nat := none
  enemy_flags : Option Nat := none
  deriving Repr, DecidableEq

/-- The `version >= 0x18` gate of `objects.py:514-516`. -/
def decodeVersionGate (mi : MapInfo) (s : List Nat) : Option (MapInfo × List Nat) :=
  if 0x18 ≤ (mi.version.getD 0) then do
    let p1 ← readUInt32LE s
    let p2 ← readUInt32LE p1.2
    pure ({ mi with unknown1 := some p1.1, unknown2 := some p2.1 }, p2.2)
  else pure (mi, s)

/-- Segment `objects.py:512-516`: format version and the two
`version >= 0x18` gated fields. -/
def decodeVersionBlock (mi : MapInfo) (s : List Nat) : Option (MapInfo × List Nat) := do
  let pv ← readUInt32LE s
  decodeVersionGate { mi with version := some pv.1 } pv.2

/-- Segment `objects.py:518-538`: width, height and the two preview
descriptors, each a type discriminant followed by a path read only
when the discriminant is the custom sentinel `2`. -/
def decodeDims (mi : MapInfo) (s : List Nat) : Option (MapInfo × List Nat) := do
  let pw ← readUInt32LE s
  let ph ← readUInt32LE pw.2
  let pst ← readUInt32LE ph.2
  let psp ← readOptPath pst.1 pst.2
  let plt ← readUInt32LE psp.2
  let plp ← readOptPath plt.1 plt.2
  pure ({ mi with width := some pw.1, height := some ph.1,
                  small_preview_type := some pst.1,
                  small_preview_path := some psp.1,
                  large_preview_type := some plt.1,
                  large_preview_path := some plp.1 }, plp.2)

/-- The `version >= 0x1f` gate of `objects.py:540-542`. -/
def decodeTerrainGate (mi : MapInfo) (s : List Nat) : Option (MapInfo × List Nat) :=
  if 0x1f ≤ (mi.version.getD 0) then do
    let p3 ← readCString s
    let p4 ← readUInt32LE p3.2
    pure ({ mi with unknown3 := some p3.1, unknown4 := some p4.1 }, p4.2)
  else pure (mi, s)

/-- Continuation of segment `objects.py:540-550`. -/
def decodeTerrain (mi : MapInfo) (s : List Nat) : Option (MapInfo × List Nat) := do
  let q ← decodeTerrainGate mi s
  let p5 ← readUInt32LE q.2
  let pf ← readCString p5.2
  let pt ← readCString pf.2
  pure ({ q.1 with unknown5 := some p5.1, fog_type := some pf.1,
                   tile_set := some pt.1 }, pt.2)

/-- Segment `objects.py:552-565`: the four camera bounds and the raw
base height (the source divides the raw value by 4096). -/
def decodeCamera (mi : MapInfo) (s : List Nat) : Option (MapInfo × List Nat) := do
  let pl ← readUInt32LE s
  let pb ← readUInt32LE pl.2
  let pr ← readUInt32LE pb.2
  let pt ← readUInt32LE pr.2
  let ph ← readUInt32LE pt.2
  pure ({ mi with camera_left := some pl.1, camera_bottom := some pb.1,
                  camera_right := some pr.1, camera_top := some pt.1,
                  base_height_raw := some ph.1 }, ph.2)

/-- Segment `objects.py:567-577`: loading-screen type and
(unconditional) path, the length-prefixed `unknown6` and the scaling
mode. -/
def decodeLoadScreenBlock (mi : MapInfo) (s : List Nat) : Option (MapInfo × List Nat) := do
  let pls ← readLoadScreen s
  let p6l ← readUInt16LE pls.2
  let p6 ← readBytesN p6l.1 p6l.2
  let psc ← readUInt32LE p6.2
  pure ({ mi with load_screen_type := some pls.1.1,
                  load_screen_path := some pls.1.2,
                  unknown6 := some p6.1,
                  load_screen_scaling := some psc.1 }, psc.2)

/-- Segment `objects.py:579-604`: loading-screen text placement. -/
def decodeTextPosition (mi : MapInfo) (s : List Nat) : Option (MapInfo × List Nat) := do
  let pp ← readUInt32LE s
  let pox ← readUInt32LE pp.2
  let poy ← readUInt32LE pox.2
  let psx ← readUInt32LE poy.2
  let psy ← readUInt32LE psx.2
  pure ({ mi with text_position := some pp.1,
                  text_position_offset_x := some pox.1,
                  text_position_offset_y := some poy.1,
                  text_position_size_x := some psx.1,
                  text_position_size_y := some psy.1 }, psy.2)

/-- The `version >= 0x19` gate of `objects.py:618-619`. -/
def decodeUnknown8 (mi : MapInfo) (s : List Nat) : Option (MapInfo × List Nat) :=
  if 0x19 ≤ (mi.version.getD 0) then
    (readBytesN 8 s).map (fun p => ({ mi with unknown8 := some p.1 }, p.2))
  else pure (mi, s)

/-- The `version >= 0x1f` gate of `objects.py:621-622`. -/
def decodeUnknown9 (mi : MapInfo) (s : List Nat) : Option (MapInfo × List Nat) :=
  if 0x1f ≤ (mi.version.getD 0) then
    (readBytesN 9 s).map (fun p => ({ mi with unknown9 := some p.1 }, p.2))
  else pure (mi, s)

/-- The `version >= 0x20` gate of `objects.py:624-625`. -/
def decodeUnknown10 (mi : MapInfo) (s : List Nat) : Option (MapInfo × List Nat) :=
  if 0x20 ≤ (mi.version.getD 0) then
    (readBytesN 4 s).map (fun p => ({ mi with unknown10 := some p.1 }, p.2))
  else pure (mi, s)

/-- Continuation of segment `objects.py:606-625`. -/
def decodeFlags (mi : MapInfo) (s : List Nat) : Option (MapInfo × List Nat) := do
  let pd ← readUInt32LE s
  let p7 ← readUInt32LE pd.2
  let q8 ← decodeUnknown8 { mi with data_flags := some pd.1, unknown7 := some p7.1 } p7.2
  let q9 ← decodeUnknown9 q8.1 q8.2
  decodeUnknown10 q9.1 q9.2

/-- Segment `objects.py:627-632`: the player slot count followed by
the unconditional early `return`.  The per-slot list and the two
relation matrices (`objects.py:634-708`) sit after that `return` and
are never decoded, so the corresponding fields keep their `none`
defaults. -/
def decodePlayerCount (mi : MapInfo) (s : List Nat) : Option (MapInfo × List Nat) := do
  let pc ← readUInt32LE s
  pure ({ mi with player_count := some pc.1 }, pc.2)

/-- Embedding of `MapInfo.__init__` (`objects.py:503-632`): the magic
check, then the segment decoders above in source order.  Returns the
populated record together with the unconsumed remainder of the buffer;
`none` models a python exception from a truncated read.  Invalid magic
(`objects.py:508-510`) is logged and the constructor returns with no
attribute assigned, modelled by the all-default record. -/
def mapInfoDecode (contents : List Nat) : Option (MapInfo × List Nat) := do
  let pm ← readBytesN 4 contents
  if pm.1 = magicMapI then
    let p1 ← decodeVersionBlock { valid := true } pm.2
    let p2 ← decodeDims p1.1 p1.2
    let p3 ← decodeTerrain p2.1 p2.2
    let p4 ← decodeCamera p3.1 p3.2
    let p5 ← decodeLoadScreenBlock p4.1 p4.2
    let p6 ← decodeTextPosition p5.1 p5.2
    let p7 ← decodeFlags p6.1 p6.2
    decodePlayerCount p7.1 p7.2
  else
    pure (({} : MapInfo), pm.2)

/-! ## Concrete test buffers -/

/-- Little-endian encoding of a 32-bit value, the inverse of
`readUInt32LE` on one field. -/
def u32 (n : Nat) : List Nat :=
  [n % 256, n / 256 % 256, n / 65536 % 256, n / 16777216 % 256]

/-- A well-formed per-slot record for the (unreachable) player loop at
`objects.py:636-646`: pid, control, color, race, unknown, start point,
ai, decal. -/
def slotRec (pid : Nat) : List Nat :=
  [pid] ++ u32 1 ++ u32 0 ++ [0] ++ u32 0 ++ u32 0 ++ u32 0 ++ [0]

/-- A complete, well-formed tail for a two-player map: two slot
records, start locations, both relation matrices — everything the
(unreachable) code at `objects.py:634-708` would decode. -/
def fullTail : List Nat :=
  slotRec 1 ++ slotRec 2 ++ u32 0 ++ u32 0 ++ u32 0 ++ u32 0 ++ u32 0 ++ u32 0 ++ u32 0

/-- A valid-magic version-1 MapInfo buffer whose fixed-size prefix is
followed by the complete well-formed tail `fullTail`. -/
def fullBuf : List Nat :=
  magicMapI ++ u32 1 ++ u32 10 ++ u32 20 ++ u32 0 ++ u32 0 ++ u32 5 ++ [0] ++ [0] ++
  u32 7 ++ u32 4 ++ u32 57 ++ u32 24 ++ u32 4096 ++ u32 0 ++ [0] ++ [0, 0] ++ u32 0 ++
  u32 0 ++ u32 0 ++ u32 0 ++ u32 0 ++ u32 0 ++ u32 0 ++ u32 0 ++ u32 2 ++ fullTail

/-- The record `mapInfoDecode` produces for `fullBuf`. -/
def miFull : MapInfo :=
  { valid := true, version := some 1, width := some 10, height := some 20,
    small_preview_type := some 0, small_preview_path := some [],
    large_preview_type := some 0, large_preview_path := some [],
    unknown5 := some 5, fog_type := some [], tile_set := some [],
    camera_left := some 7, camera_bottom := some 4, camera_right := some 57,
    camera_top := some 24, base_height_raw := some 4096,
    load_screen_type := some 0, load_screen_path := some [], unknown6 := some [],
    load_screen_scaling := some 0, text_position := some 0,
    text_position_offset_x := some 0, text_position_offset_y := some 0,
    text_position_size_x := some 0, text_position_size_y := some 0,
    data_flags := some 0, unknown7 := some 0, player_count := some 2 }

/-- A valid-magic version-1 buffer whose loading-screen type is `0`
(not the custom sentinel `2`) and whose next bytes are the c-string
`"abc"`. -/
def lsBuf : List Nat :=
  magicMapI ++ u32 1 ++ u32 10 ++ u32 20 ++ u32 0 ++ u32 0 ++ u32 5 ++ [0] ++ [0] ++
  u32 7 ++ u32 4 ++ u32 57 ++ u32 24 ++ u32 4096 ++ u32 0 ++ [97, 98, 99, 0] ++ [0, 0] ++
  u32 0 ++ u32 0 ++ u32 0 ++ u32 0 ++ u32 0 ++ u32 0 ++ u32 0 ++ u32 0 ++ u32 2

/-! ## Relation matrices

The executable decode of a relation matrix (`objects.py:655-672` for
alliances, `objects.py:693-708` for enemies) reads a 32-bit flag
count `n` and then `ceil(n/8)` bytes as one unsigned integer; it sits
after the unconditional `return` at line 632.  The bit-to-pair
interpretation exists only as comment pseudocode (lines 659-670 and
695-706): a mask starts at 1 and is shifted left *before* each pair
`(i, j)`, `i < j`, enumerated row-major. -/

/-- Embedding of the relation-matrix byte layout
(`objects.py:657-658, 672` and `694, 708`): a 32-bit flag count `n`
followed by `int(math.ceil(n/8.0))` bytes read as one big-endian
unsigned integer. -/
def readRelationMatrix (s : List Nat) : Option ((Nat × Nat) × List Nat) := do
  let pn ← readUInt32LE s
  let pf ← readUIntBE ((pn.1 + 7) / 8) pn.2
  pure ((pn.1, pf.1), pf.2)

/-- All pairs `(i, j)` with `i < j` below `count`, row-major:
`i` ascending, then `j` from `i+1` upward.  Mirrors the loop structure
of the comment pseudocode at `objects.py:661-670`. -/
def pairList (count : Nat) : List (Nat × Nat) :=
  (List.range count).flatMap (fun i =>
    ((List.range count).drop (i + 1)).map (fun j => (i, j)))

/-- Modelled from the comment pseudocode at `objects.py:659-670`
(identically `695-706`): the mask starts at `bit = 1` and is shifted
left *before* testing each successive pair, so the pair at position
`k` of `pairList count` is marked when bit `k + 1` of the flag integer
is set.  Returns the marked pairs. -/
def relationPairs (count : Nat) (flags : Nat) : List (Nat × Nat) :=
  ((pairList count).enum.filter (fun p => flags.testBit (p.1 + 1))).map (fun p => p.2)

/-! ## Entity composition -/

/-- Python `int()` on the fragments of a toon handle: unsigned decimal
parse; any non-digit (including the empty string) raises, modelled as
`none`. -/
def parseNat (l : List Char) : Option Nat :=
  if l.isEmpty then none
  else l.foldl (fun acc c =>
    acc.bind (fun n =>
      if '0' ≤ c ∧ c ≤ '9' then some (n * 10 + (c.toNat - 48)) else none))
    (some 0)

/-- Python `str.split("-")`. -/
def splitDash : List Char → List (List Char)
  | [] => [[]]
  | c :: rest =>
    if c = '-' then [] :: splitDash rest
    else
      match splitDash rest with
      | [] => [[c]]
      | g :: gs => (c :: g) :: gs

/-- The canonical zero handle `"0-S2-0-0"` (`objects.py:130`). -/
def zeroHandle : List Char := ['0', '-', 'S', '2', '-', '0', '-', '0']

/-- Embedding of `objects.py:130-145`: the handle falls back to
`"0-S2-0-0"` only when it is absent (`None`) or empty (python
falsiness of `""`); it is then split on `"-"` and fragments 0, 2 and 3
are parsed with `int()`.  A missing fragment (python `IndexError`) or
a non-numeric fragment (python `ValueError`) is a fault, modelled as
`none`.  Returns `(regionCode, subregion, toon_id)`; the source maps
`regionCode` through `GATEWAY_LOOKUP`. -/
def toonHandleParse (toon_handle : Option (List Char)) : Option (Nat × Nat × Nat) := do
  let h := match toon_handle with
    | none => zeroHandle
    | some l => if l.isEmpty then zeroHandle else l
  let parts := splitDash h
  let f0 ← parts.get? 0
  let region ← parseNat f0
  let f2 ← parts.get? 2
  let subregion ← parseNat f2
  let f3 ← parts.get? 3
  let toon_id ← parseNat f3
  pure (region, subregion, toon_id)

/-- The slot-data fields `Entity.__init__` reads
(`objects.py:93-148`). -/
structure SlotData where
  handicap : Nat
  team_id : Nat
  control : Nat
  observe : Nat
  hero : List Char
  skin : List Char
  mount : List Char
  toon_handle : Option (List Char)
  tandem_leader_user_id : Option Nat
  deriving Repr, DecidableEq

/-- The composed `Entity` (`objects.py:88-156`).  `region` is
`GATEWAY_LOOKUP[regionCode]`; the lookup table lives in
`sc2reader/constants.py` (not under review) and is passed in as the
`lookup` argument of `Entity.ofSlot`. -/
structure Entity where
  sid : Nat
  handicap : Nat
  team_id : Nat
  is_human : Bool
  is_observer : Bool
  is_referee : Bool
  region : String
  subregion : Nat
  toon_id : Nat
  archon_leader_id : Option Nat
  deriving Repr, DecidableEq

/-- Embedding of `Entity.__init__` (`objects.py:93-156`):
`is_human` iff `control == 2`, `is_observer` iff `observe != 0`,
`is_referee` iff `observe == 2`, `team_id` is the raw id plus one, and
the identity triple comes from `toonHandleParse`.  A python exception
inside the constructor is modelled as `none`. -/
def Entity.ofSlot (lookup : Nat → String) (sid : Nat) (slot : SlotData) : Option Entity := do
  let t ← toonHandleParse slot.toon_handle
  pure { sid := sid
         handicap := slot.handicap
         team_id := slot.team_id + 1
         is_human := slot.control = 2
         is_observer := slot.observe ≠ 0
         is_referee := slot.observe = 2
         region := lookup t.1
         subregion := t.2.1
         toon_id := t.2.2
         archon_leader_id := slot.tandem_leader_user_id }

/-! ## Participant variants -/

/-- The user-data fields `User.__init__` reads
(`objects.py:233-255`). -/
structure UserData where
  clan_tag : String
  name : String
  combined_race_levels : Nat
  highest_league : Nat
  deriving Repr, DecidableEq

/-- The detail-data fields `Player.__init__` and the concrete
subclasses read (`objects.py:168-222, 300`). -/
structure DetailData where
  name : String
  result : Nat
  race : String
  bnet_region : Nat
  bnet_subregion : Nat
  bnet_uid : Nat
  deriving Repr, DecidableEq

/-- The three concrete participant classes (`objects.py:263-329`):
`Observer` extends Entity + User, `Computer` extends Entity + Player,
`Participant` extends Entity + User + Player. -/
inductive ParticipantKind where
  | Observer
  | Computer
  | Participant
  deriving Repr, DecidableEq

/-- The fault raised when neither user nor detail data is supplied. -/
inductive ComposeError where
  | InconsistentInput
  deriving Repr, DecidableEq

/-- Modelled from the spec: the dispatch choosing the participant
variant from which of user/detail data are present lives in the
resource-loading layer, not in `objects.py` (only the three concrete
classes are there).  Per the spec: both records present builds the
human `Participant`, detail only builds `Computer`, user only builds
`Observer`, and neither is a fatal `InconsistentInput` reported to
the caller. -/
def compose (user : Option UserData) (detail : Option DetailData) :
    Except ComposeError ParticipantKind :=
  match user, detail with
  | some _, some _ => .ok .Participant
  | some _, none => .ok .Observer
  | none, some _ => .ok .Computer
  | none, none => .error .InconsistentInput

/-! ## Team fingerprint -/

/-- A team member, reduced to the one field `Team.hash` reads: the
battle-net profile url (`objects.py:55`, `User.url`). -/
structure TeamMember where
  url : String
  deriving Repr, DecidableEq

/-- The `Team` container (`objects.py:15-62`): an insertion-ordered
member list. -/
structure Team where
  number : Nat
  players : List TeamMember
  deriving Repr, DecidableEq

/-- Appending a composed participant to a team
(the composition pass appends, never removes). -/
def Team.addPlayer (t : Team) (p : TeamMember) : Team :=
  { t with players := t.players ++ [p] }

/-- Embedding of the `Team.hash` property (`objects.py:53-56`): the
member urls sorted lexicographically, joined with `","`, then passed
through the cryptographic digest (`hashlib.sha256(...).hexdigest()`,
kept abstract as `digest`).  A python property, so it is recomputed
from the current member list on every access — the shallow embedding
is a pure function of `t.players`. -/
def Team.hash (digest : String → String) (t : Team) : String :=
  digest (String.intercalate "," (((t.players.map TeamMember.url)).insertionSort (· ≤ ·)))

/-! ## Attribute resolution -/

/-- Python `str.strip("\x00 ")`: remove leading and trailing
characters belonging to the null/space pad set. -/
def isPadChar (c : Char) : Bool := c = '\x00' ∨ c = ' '

/-- The `value.strip("\x00 ")` step of `objects.py:79`. -/
def pyStripPad (l : List Char) : List Char :=
  ((l.dropWhile isPadChar).reverse.dropWhile isPadChar).reverse

/-- The normalized lookup key of `objects.py:79`:
`value.strip("\x00 ")[::-1]` — strip the padding, then reverse. -/
def attrKey (value : List Char) : List Char :=
  (pyStripPad value).reverse

/-- Embedding of `Attribute.__init__` (`objects.py:68-79`).  The
`LOBBY_PROPERTIES` table lives in `sc2reader/constants.py` (not under
review) and is passed in as `table`, mapping an attribute id to its
`(name, valueTable)` pair.  An unknown id is logged and resolves to
`("Unknown", None)`; a known id looks the normalized raw value up in
the value table, and a missing key (python `KeyError`) is a fault,
modelled as `Except.error`. -/
def attributeResolve {β : Type} (table : Nat → Option (String × (List Char → Option β)))
    (attr_id : Nat) (value : List Char) : Except Unit (String × Option β) :=
  match table attr_id with
  | none => .ok ("Unknown", none)
  | some nt =>
    match nt.2 (attrKey value) with
    | some v => .ok (nt.1, some v)
    | none => .error ()

/-! ## Auxiliary predicates and concrete records for the proofs -/

/-- The `MapInfo` facts every decode segment preserves: the five tail
fields (assigned only in the unreachable code after the `return` at
`objects.py:632`) and the magic-validity marker. -/
def TailUntouched (mi mi' : MapInfo) : Prop :=
  mi'.players = mi.players ∧ mi'.alliance_flags_length = mi.alliance_flags_length ∧
  mi'.alliance_flags = mi.alliance_flags ∧ mi'.enemy_flags_length = mi.enemy_flags_length ∧
  mi'.enemy_flags = mi.enemy_flags ∧ mi'.valid = mi.valid

/-- A referee slot (observe code 2) with an absent toon handle. -/
def slotRef : SlotData :=
  { handicap := 100, team_id := 0, control := 2, observe := 2,
    hero := [], skin := [], mount := [], toon_handle := none,
    tandem_leader_user_id := none }

/-- The entity composed from `slotRef`. -/
def entRef : Entity :=
  { sid := 5, handicap := 100, team_id := 1, is_human := true,
    is_observer := true, is_referee := true, region := "",
    subregion := 0, toon_id := 0, archon_leader_id := none }

/-- The handle `"1-S2-3-12345"`. -/
def handle12345 : List Char :=
  ['1', '-', 'S', '2', '-', '3', '-', '1', '2', '3', '4', '5']

/-- A slot whose toon handle is `"1-S2-3-12345"`. -/
def slot12345 : SlotData :=
  { handicap := 100, team_id := 0, control := 2, observe := 0,
    hero := [], skin := [], mount := [], toon_handle := some handle12345,
    tandem_leader_user_id := none }

/-- A one-entry lobby-properties fixture: id 1 is known with a value
table containing the single key `"EM"`. -/
def tbl : Nat → Option (String × (List Char → Option Nat)) :=
  fun attr_id =>
    if attr_id = 1 then
      some ("Race", fun k => if k = ['E', 'M'] then some 7 else none)
    else none

/-! ## Segment inversion lemmas

One lemma per decode segment: whatever a successful segment returns,
the tail fields and the validity marker are untouched, and fields set
by earlier segments are preserved. -/

theorem tailUntouched_trans {a b c : MapInfo}
    (h1 : TailUntouched a b) (h2 : TailUntouched b c) : TailUntouched a c :=
  ⟨h2.1.trans h1.1, h2.2.1.trans h1.2.1, h2.2.2.1.trans h1.2.2.1,
   h2.2.2.2.1.trans h1.2.2.2.1, h2.2.2.2.2.1.trans h1.2.2.2.2.1,
   h2.2.2.2.2.2.trans h1.2.2.2.2.2⟩

theorem decodeVersionGate_inv {mi : MapInfo} {s : List Nat} {mi' : MapInfo} {s' : List Nat}
    (h : decodeVersionGate mi s = some (mi', s')) :
    TailUntouched mi mi' ∧ mi'.version = mi.version := by
  unfold decodeVersionGate at h
  split at h
  · simp only [Option.bind_eq_bind, Option.bind_eq_some, Option.pure_def,
      Option.some.injEq, Prod.mk.injEq] at h
    obtain ⟨p1, h1, p2, h2, hmi, hs⟩ := h
    subst hmi; exact ⟨⟨rfl, rfl, rfl, rfl, rfl, rfl⟩, rfl⟩
  · simp only [Option.pure_def, Option.some.injEq, Prod.mk.injEq] at h
    obtain ⟨hmi, hs⟩ := h
    subst hmi; exact ⟨⟨rfl, rfl, rfl, rfl, rfl, rfl⟩, rfl⟩

theorem decodeVersionBlock_inv {mi : MapInfo} {s : List Nat} {mi' : MapInfo} {s' : List Nat}
    (h : decodeVersionBlock mi s = some (mi', s')) :
    TailUntouched mi mi' ∧ mi'.version.isSome = true := by
  simp only [decodeVersionBlock, Option.bind_eq_bind, Option.bind_eq_some] at h
  obtain ⟨pv, hv, h⟩ := h
  obtain ⟨ht, hver⟩ := decodeVersionGate_inv h
  refine ⟨⟨ht.1, ht.2.1, ht.2.2.1, ht.2.2.2.1, ht.2.2.2.2.1, ht.2.2.2.2.2⟩, ?_⟩
  simp [hver]

theorem decodeDims_inv {mi : MapInfo} {s : List Nat} {mi' : MapInfo} {s' : List Nat}
    (h : decodeDims mi s = some (mi', s')) :
    TailUntouched mi mi' ∧ mi'.version = mi.version ∧
    mi'.width.isSome = true ∧ mi'.height.isSome = true := by
  simp only [decodeDims, Option.bind_eq_bind, Option.bind_eq_some, Option.pure_def,
    Option.some.injEq, Prod.mk.injEq] at h
  obtain ⟨pw, hw, ph, hh, pst, hst, psp, hsp, plt, hlt, plp, hlp, hmi, hs⟩ := h
  subst hmi
  exact ⟨⟨rfl, rfl, rfl, rfl, rfl, rfl⟩, rfl, rfl, rfl⟩

theorem decodeTerrainGate_inv {mi : MapInfo} {s : List Nat} {mi' : MapInfo} {s' : List Nat}
    (h : decodeTerrainGate mi s = some (mi', s')) :
    TailUntouched mi mi' ∧ mi'.version = mi.version ∧
    mi'.width = mi.width ∧ mi'.height = mi.height := by
  unfold decodeTerrainGate at h
  split at h
  · simp only [Option.bind_eq_bind, Option.bind_eq_some, Option.pure_def,
      Option.some.injEq, Prod.mk.injEq] at h
    obtain ⟨p3, h3, p4, h4, hmi, hs⟩ := h
    subst hmi; exact ⟨⟨rfl, rfl, rfl, rfl, rfl, rfl⟩, rfl, rfl, rfl⟩
  · simp only [Option.pure_def, Option.some.injEq, Prod.mk.injEq] at h
    obtain ⟨hmi, hs⟩ := h
    subst hmi; exact ⟨⟨rfl, rfl, rfl, rfl, rfl, rfl⟩, rfl, rfl, rfl⟩

theorem decodeTerrain_inv {mi : MapInfo} {s : List Nat} {mi' : MapInfo} {s' : List Nat}
    (h : decodeTerrain mi s = some (mi', s')) :
    TailUntouched mi mi' ∧ mi'.version = mi.version ∧
    mi'.width = mi.width ∧ mi'.height = mi.height := by
  simp only [decodeTerrain, Option.bind_eq_bind, Option.bind_eq_some, Option.pure_def,
    Option.some.injEq, Prod.mk.injEq] at h
  obtain ⟨q, hq, p5, h5, pf, hf, pt, ht, hmi, hs⟩ := h
  obtain ⟨tq, vq, wq, hq2⟩ := decodeTerrainGate_inv hq
  subst hmi
  exact ⟨⟨tq.1, tq.2.1, tq.2.2.1, tq.2.2.2.1, tq.2.2.2.2.1, tq.2.2.2.2.2⟩, vq, wq, hq2⟩

theorem decodeCamera_inv {mi : MapInfo} {s : List Nat} {mi' : MapInfo} {s' : List Nat}
    (h : decodeCamera mi s = some (mi', s')) :
    TailUntouched mi mi' ∧ mi'.version = mi.version ∧
    mi'.width = mi.width ∧ mi'.height = mi.height := by
  simp only [decodeCamera, Option.bind_eq_bind, Option.bind_eq_some, Option.pure_def,
    Option.some.injEq, Prod.mk.injEq] at h
  obtain ⟨pl, hl, pb, hb, pr, hr, pt, ht, ph, hh, hmi, hs⟩ := h
  subst hmi
  exact ⟨⟨rfl, rfl, rfl, rfl, rfl, rfl⟩, rfl, rfl, rfl⟩

theorem decodeLoadScreenBlock_inv {mi : MapInfo} {s : List Nat} {mi' : MapInfo} {s' : List Nat}
    (h : decodeLoadScreenBlock mi s = some (mi', s')) :
    TailUntouched mi mi' ∧ mi'.version = mi.version ∧
    mi'.width = mi.width ∧ mi'.height = mi.height := by
  simp only [decodeLoadScreenBlock, Option.bind_eq_bind, Option.bind_eq_some, Option.pure_def,
    Option.some.injEq, Prod.mk.injEq] at h
  obtain ⟨pls, hls, p6l, h6l, p6, h6, psc, hsc, hmi, hs⟩ := h
  subst hmi
  exact ⟨⟨rfl, rfl, rfl, rfl, rfl, rfl⟩, rfl, rfl, rfl⟩

theorem decodeTextPosition_inv {mi : MapInfo} {s : List Nat} {mi' : MapInfo} {s' : List Nat}
    (h : decodeTextPosition mi s = some (mi', s')) :
    TailUntouched mi mi' ∧ mi'.version = mi.version ∧
    mi'.width = mi.width ∧ mi'.height = mi.height := by
  simp only [decodeTextPosition, Option.bind_eq_bind, Option.bind_eq_some, Option.pure_def,
    Option.some.injEq, Prod.mk.injEq] at h
  obtain ⟨pp, hp, pox, hox, poy, hoy, psx, hsx, psy, hsy, hmi, hs⟩ := h
  subst hmi
  exact ⟨⟨rfl, rfl, rfl, rfl, rfl, rfl⟩, rfl, rfl, rfl⟩

theorem decodeUnknown8_inv {mi : MapInfo} {s : List Nat} {mi' : MapInfo} {s' : List Nat}
    (h : decodeUnknown8 mi s = some (mi', s')) :
    TailUntouched mi mi' ∧ mi'.version = mi.version ∧
    mi'.width = mi.width ∧ mi'.height = mi.height := by
  unfold decodeUnknown8 at h
  split at h
  · simp only [Option.map_eq_some', Prod.mk.injEq] at h
    obtain ⟨p, hp, hmi, hs⟩ := h
    subst hmi; exact ⟨⟨rfl, rfl, rfl, rfl, rfl, rfl⟩, rfl, rfl, rfl⟩
  · simp only [Option.pure_def, Option.some.injEq, Prod.mk.injEq] at h
    obtain ⟨hmi, hs⟩ := h
    subst hmi; exact ⟨⟨rfl, rfl, rfl, rfl, rfl, rfl⟩, rfl, rfl, rfl⟩

theorem decodeUnknown9_inv {mi : MapInfo} {s : List Nat} {mi' : MapInfo} {s' : List Nat}
    (h : decodeUnknown9 mi s = some (mi', s')) :
    TailUntouched mi mi' ∧ mi'.version = mi.version ∧
    mi'.width = mi.width ∧ mi'.height = mi.height := by
  unfold decodeUnknown9 at h
  split at h
  · simp only [Option.map_eq_some', Prod.mk.injEq] at h
    obtain ⟨p, hp, hmi, hs⟩ := h
    subst hmi; exact ⟨⟨rfl, rfl, rfl, rfl, rfl, rfl⟩, rfl, rfl, rfl⟩
  · simp only [Option.pure_def, Option.some.injEq, Prod.mk.injEq] at h
    obtain ⟨hmi, hs⟩ := h
    subst hmi; exact ⟨⟨rfl, rfl, rfl, rfl, rfl, rfl⟩, rfl, rfl, rfl⟩

theorem decodeUnknown10_inv {mi : MapInfo} {s : List Nat} {mi' : MapInfo} {s' : List Nat}
    (h : decodeUnknown10 mi s = some (mi', s')) :
    TailUntouched mi mi' ∧ mi'.version = mi.version ∧
    mi'.width = mi.width ∧ mi'.height = mi.height := by
  unfold decodeUnknown10 at h
  split at h
  · simp only [Option.map_eq_some', Prod.mk.injEq] at h
    obtain ⟨p, hp, hmi, hs⟩ := h
    subst hmi; exact ⟨⟨rfl, rfl, rfl, rfl, rfl, rfl⟩, rfl, rfl, rfl⟩
  · simp only [Option.pure_def, Option.some.injEq, Prod.mk.injEq] at h
    obtain ⟨hmi, hs⟩ := h
    subst hmi; exact ⟨⟨rfl, rfl, rfl, rfl, rfl, rfl⟩, rfl, rfl, rfl⟩

theorem decodeFlags_inv {mi : MapInfo} {s : List Nat} {mi' : MapInfo} {s' : List Nat}
    (h : decodeFlags mi s = some (mi', s')) :
    TailUntouched mi mi' ∧ mi'.version = mi.version ∧
    mi'.width = mi.width ∧ mi'.height = mi.height := by
  simp only [decodeFlags, Option.bind_eq_bind, Option.bind_eq_some] at h
  obtain ⟨pd, hpd, p7, hp7, q8, h8, q9, h9, h⟩ := h
  obtain ⟨q81, q82⟩ := q8
  obtain ⟨q91, q92⟩ := q9
  obtain ⟨t8, v8, w8, x8⟩ := decodeUnknown8_inv h8
  obtain ⟨t9, v9, w9, x9⟩ := decodeUnknown9_inv h9
  obtain ⟨t10, v10, w10, x10⟩ := decodeUnknown10_inv h
  have t8' : TailUntouched mi q81 := t8
  have v8' : q81.version = mi.version := v8
  have w8' : q81.width = mi.width := w8
  have x8' : q81.height = mi.height := x8
  exact ⟨tailUntouched_trans (tailUntouched_trans t8' t9) t10,
    (v10.trans v9).trans v8', (w10.trans w9).trans w8', (x10.trans x9).trans x8'⟩

theorem decodePlayerCount_inv {mi : MapInfo} {s : List Nat} {mi' : MapInfo} {s' : List Nat}
    (h : decodePlayerCount mi s = some (mi', s')) :
    TailUntouched mi mi' ∧ mi'.version = mi.version ∧ mi'.width = mi.width ∧
    mi'.height = mi.height ∧ mi'.player_count.isSome = true := by
  simp only [decodePlayerCount, Option.bind_eq_bind, Option.bind_eq_some, Option.pure_def,
    Option.some.injEq, Prod.mk.injEq] at h
  obtain ⟨pc, hc, hmi, hs⟩ := h
  subst hmi
  exact ⟨⟨rfl, rfl, rfl, rfl, rfl, rfl⟩, rfl, rfl, rfl, rfl⟩

/-! ## Claims -/

/-- C1 (amended): whenever `MapInfo` decoding succeeds, it has stopped
at the early `return` after the player slot count: the per-slot list
and both relation matrices are never decoded (there is no opt-in path
to them — the code at `objects.py:634-708` is unreachable), and if the
magic signature matched, the fixed-size prefix through the player slot
count is fully populated, as a success, not a fault. -/
theorem mapInfo_early_stop : ∀ (contents : List Nat) (mi : MapInfo) (rest : List Nat),
    mapInfoDecode contents = some (mi, rest) →
    mi.players = none ∧ mi.alliance_flags_length = none ∧ mi.alliance_flags = none ∧
    mi.enemy_flags_length = none ∧ mi.enemy_flags = none ∧
    (mi.valid = true → mi.version.isSome = true ∧ mi.width.isSome = true ∧
      mi.height.isSome = true ∧ mi.player_count.isSome = true) := by
  intro contents mi rest h
  simp only [mapInfoDecode, Option.bind_eq_bind, Option.bind_eq_some] at h
  obtain ⟨pm, hpm, h⟩ := h
  split at h
  · simp only [Option.bind_eq_bind, Option.bind_eq_some] at h
    obtain ⟨p1, h1, p2, h2, p3, h3, p4, h4, p5, h5, p6, h6, p7, h7, h⟩ := h
    obtain ⟨m1, s1⟩ := p1
    obtain ⟨m2, s2⟩ := p2
    obtain ⟨m3, s3⟩ := p3
    obtain ⟨m4, s4⟩ := p4
    obtain ⟨m5, s5⟩ := p5
    obtain ⟨m6, s6⟩ := p6
    obtain ⟨m7, s7⟩ := p7
    obtain ⟨t1, ver1⟩ := decodeVersionBlock_inv h1
    obtain ⟨t2, v2, wid2, hei2⟩ := decodeDims_inv h2
    obtain ⟨t3, v3, w3, x3⟩ := decodeTerrain_inv h3
    obtain ⟨t4, v4, w4, x4⟩ := decodeCamera_inv h4
    obtain ⟨t5, v5, w5, x5⟩ := decodeLoadScreenBlock_inv h5
    obtain ⟨t6, v6, w6, x6⟩ := decodeTextPosition_inv h6
    obtain ⟨t7, v7, w7, x7⟩ := decodeFlags_inv h7
    obtain ⟨t8, v8, w8, x8, pc8⟩ := decodePlayerCount_inv h
    have tu : TailUntouched ({ valid := true } : MapInfo) mi :=
      tailUntouched_trans (tailUntouched_trans (tailUntouched_trans
        (tailUntouched_trans (tailUntouched_trans (tailUntouched_trans
          (tailUntouched_trans t1 t2) t3) t4) t5) t6) t7) t8
    have hver : mi.version = m1.version :=
      ((((((v8.trans v7).trans v6).trans v5).trans v4).trans v3).trans v2)
    have hwid : mi.width = m2.width :=
      (((((w8.trans w7).trans w6).trans w5).trans w4).trans w3)
    have hhei : mi.height = m2.height :=
      (((((x8.trans x7).trans x6).trans x5).trans x4).trans x3)
    refine ⟨tu.1, tu.2.1, tu.2.2.1, tu.2.2.2.1, tu.2.2.2.2.1, ?_⟩
    intro _
    exact ⟨by rw [hver]; exact ver1, by rw [hwid]; exact wid2,
      by rw [hhei]; exact hei2, pc8⟩
  · simp only [Option.pure_def, Option.some.injEq, Prod.mk.injEq] at h
    obtain ⟨hmi, hs⟩ := h
    subst hmi
    exact ⟨rfl, rfl, rfl, rfl, rfl, fun hv => by simp at hv⟩

/-- C1 (counterexample): `fullBuf` has a valid magic signature and
carries a complete, well-formed tail (`fullTail`: two slot records and
both relation matrices), yet the decoder leaves the per-slot list and
both relation matrices undecoded and the entire 74-byte tail
unconsumed — there is no opt-in through which a caller can obtain the
tail, contradicting the claim that it is decoded when a caller
explicitly opts in. -/
theorem mapInfo_tail_never_decoded :
    mapInfoDecode fullBuf = some (miFull, fullTail) ∧
    miFull.players = none ∧ miFull.alliance_flags = none ∧
    miFull.enemy_flags = none ∧ miFull.player_count = some 2 ∧
    fullTail.length = 74 := by
  refine ⟨?_, rfl, rfl, rfl, rfl, ?_⟩
  · rfl
  · rfl

/-- C1 (witness): the early-stop theorem applied to the concrete
buffer `fullBuf`. -/
theorem mapInfo_early_stop_witness :
    miFull.players = none ∧ miFull.alliance_flags_length = none ∧
    miFull.alliance_flags = none ∧ miFull.enemy_flags_length = none ∧
    miFull.enemy_flags = none ∧
    (miFull.valid = true → miFull.version.isSome = true ∧ miFull.width.isSome = true ∧
      miFull.height.isSome = true ∧ miFull.player_count.isSome = true) :=
  mapInfo_early_stop fullBuf miFull fullTail (by rfl)

/-- C4: a buffer whose first four bytes are readable but differ from
the `'MapI'` signature decodes to the all-default record — no field is
populated, not even the format version — and this is reported as a
value (the invalid-format record), not as a fault (`none`), so the
process is not crashed. -/
theorem mapInfo_bad_magic : ∀ (contents : List Nat),
    4 ≤ contents.length → contents.take 4 ≠ magicMapI →
    mapInfoDecode contents = some (({} : MapInfo), contents.drop 4) ∧
    (({} : MapInfo)).valid = false ∧ (({} : MapInfo)).version = none ∧
    (({} : MapInfo)).width = none ∧ (({} : MapInfo)).player_count = none := by
  intro contents h4 hm
  refine ⟨?_, rfl, rfl, rfl, rfl⟩
  simp only [mapInfoDecode, readBytesN, if_pos h4, Option.bind_eq_bind, Option.some_bind]
  rw [if_neg hm]
  rfl

/-- C4 (witness): the bad-magic theorem applied to a concrete
five-byte buffer. -/
theorem mapInfo_bad_magic_witness :
    mapInfoDecode [1, 2, 3, 4, 5] = some (({} : MapInfo), [5]) ∧
    (({} : MapInfo)).valid = false ∧ (({} : MapInfo)).version = none ∧
    (({} : MapInfo)).width = none ∧ (({} : MapInfo)).player_count = none :=
  mapInfo_bad_magic [1, 2, 3, 4, 5] (by decide) (by decide)

/-- C2 (counterexample): in `lsBuf` the loading-screen type
discriminant is `0` (not the custom sentinel `2`), yet the decoder
still consumes the following four bytes `"abc\x00"` as the
loading-screen path — for the loading-screen descriptor the path read
is unconditional (`objects.py:571`), contradicting the claim that the
path is read if and only if the discriminant equals the sentinel. -/
theorem loadScreen_path_read_unconditionally :
    (mapInfoDecode lsBuf).map (fun p => (p.1.load_screen_type, p.1.load_screen_path)) =
      some (some 0, some [97, 98, 99]) := by
  rfl

/-- C2 (amended): the two preview descriptors follow the conditional
two-step pattern — the path c-string is read when and only when the
type discriminant equals the custom sentinel `2`, and otherwise no
bytes are consumed for it — while the loading-screen descriptor reads
its path unconditionally after the type discriminant. -/
theorem preview_paths_conditional :
    (∀ s : List Nat, readOptPath 2 s = readCString s) ∧
    (∀ (ty : Nat) (s : List Nat), ty ≠ 2 → readOptPath ty s = some ([], s)) ∧
    (∀ (s : List Nat) (ty : Nat) (s₁ : List Nat), readUInt32LE s = some (ty, s₁) →
      readLoadScreen s = (readCString s₁).map (fun p => ((ty, p.1), p.2))) := by
  refine ⟨fun s => by simp [readOptPath], fun ty s hty => by simp [readOptPath, hty], ?_⟩
  intro s ty s₁ h
  simp only [readLoadScreen, Option.bind_eq_bind, h, Option.some_bind]
  cases hc : readCString s₁ <;> simp [hc]

/-- C2 (witness): the conditional-path theorem applied at concrete
inputs — a non-sentinel preview type consumes nothing, and a
loading-screen read with type `0` still consumes a path. -/
theorem preview_paths_conditional_witness :
    readOptPath 0 [9, 9] = some ([], [9, 9]) ∧
    readLoadScreen [0, 0, 0, 0, 97, 0] = some ((0, [97]), []) := by
  constructor
  · exact preview_paths_conditional.2.1 0 [9, 9] (by decide)
  · rw [preview_paths_conditional.2.2 [0, 0, 0, 0, 97, 0] 0 [97, 0] (by rfl)]
    rfl

/-- C3 (counterexample): with only bit 1 of the flag integer set
(`flags = 2`), the comment pseudocode at `objects.py:659-670` marks
the pair `(0, 1)` — not `(0, 2)` as the claim states — because the
mask starts at `bit = 1` and is shifted left *before* the first test,
so pair `(0, 1)` corresponds to bit 1, not bit 0. -/
theorem relation_bit1_marks_first_pair :
    relationPairs 3 2 = [(0, 1)] ∧ relationPairs 3 2 ≠ [(0, 2)] := by
  decide

/-- C3 (amended): each relation matrix reads an explicit bit-count `n`
and consumes `ceil(n/8)` bytes as one big-endian bit sequence; pairs
`(i, j)`, `i < j`, are enumerated row-major (`i` ascending, then `j`
from `i+1` upward), but the pair at position `k` of that enumeration
corresponds to bit `k + 1` of the flag integer (the mask is shifted
before each test), so over 3 entities bit 1 marks (0,1), bit 2 marks
(0,2), bit 3 marks (1,2). -/
theorem relationMatrix_layout :
    (∀ (s : List Nat) (n : Nat) (s₁ : List Nat), readUInt32LE s = some (n, s₁) →
      readRelationMatrix s =
        (readUIntBE ((n + 7) / 8) s₁).map (fun pf => ((n, pf.1), pf.2))) ∧
    pairList 3 = [(0, 1), (0, 2), (1, 2)] ∧
    relationPairs 3 2 = [(0, 1)] ∧
    relationPairs 3 4 = [(0, 2)] ∧
    relationPairs 3 8 = [(1, 2)] := by
  refine ⟨?_, by decide, by decide, by decide, by decide⟩
  intro s n s₁ h
  simp only [readRelationMatrix, Option.bind_eq_bind, h, Option.some_bind]
  cases hb : readUIntBE ((n + 7) / 8) s₁ <;> simp [hb]

/-- C3 (witness): the layout theorem applied to a concrete matrix with
bit-count 4, occupying `ceil(4/8) = 1` byte. -/
theorem relationMatrix_layout_witness :
    readRelationMatrix [4, 0, 0, 0, 2] = some ((4, 2), []) := by
  rw [relationMatrix_layout.1 [4, 0, 0, 0, 2] 4 [2] (by rfl)]
  rfl

/-- C5 (counterexample): the fallback at `objects.py:130` triggers
only on python-falsy handles (`None` or `""`); a malformed non-empty
handle such as `"xyz"` is split as-is, and `int("xyz")` /
`parts[2]` then raise — account-handle parsing does fail, contradicting
the claim that it never fails on malformed handles. -/
theorem toon_malformed_handle_faults :
    toonHandleParse (some ['x', 'y', 'z']) = none := by
  decide

/-- C5 (amended): an absent or empty handle falls back to the
canonical zero handle before splitting, so it yields
`region = lookup 0`, `subregion = 0`, `accountId = 0` without
faulting, and the well-formed handle `"1-S2-3-12345"` yields
`region = lookup 1`, `subregion = 3`, `accountId = 12345`; the
fallback does not protect malformed non-empty handles. -/
theorem toon_handle_fallback : ∀ (lookup : Nat → String) (sid : Nat) (slot : SlotData),
    ((slot.toon_handle = none ∨ slot.toon_handle = some []) →
      (Entity.ofSlot lookup sid slot).map (fun e => (e.region, e.subregion, e.toon_id)) =
        some (lookup 0, 0, 0)) ∧
    (slot.toon_handle = some handle12345 →
      (Entity.ofSlot lookup sid slot).map (fun e => (e.region, e.subregion, e.toon_id)) =
        some (lookup 1, 3, 12345)) := by
  intro lookup sid slot
  constructor
  · intro hcase
    have hp : toonHandleParse slot.toon_handle = some (0, 0, 0) := by
      rcases hcase with h | h <;> rw [h] <;> decide
    simp [Entity.ofSlot, hp]
  · intro hcase
    have hp : toonHandleParse slot.toon_handle = some (1, 3, 12345) := by
      rw [hcase]; decide
    simp [Entity.ofSlot, hp]

/-- C5 (witness): the fallback theorem applied to a slot with the
handle `"1-S2-3-12345"` and to a slot with an absent handle. -/
theorem toon_handle_fallback_witness :
    (Entity.ofSlot (fun n => toString n) 7 slot12345).map
      (fun e => (e.region, e.subregion, e.toon_id)) = some (toString 1, 3, 12345) ∧
    (Entity.ofSlot (fun n => toString n) 7 slotRef).map
      (fun e => (e.region, e.subregion, e.toon_id)) = some (toString 0, 0, 0) :=
  ⟨(toon_handle_fallback (fun n => toString n) 7 slot12345).2 rfl,
   (toon_handle_fallback (fun n => toString n) 7 slotRef).1 (Or.inl rfl)⟩

/-- C6: composing with both user and detail data yields the human
`Participant`, detail only yields `Computer`, user only yields
`Observer`, and neither is the fatal `InconsistentInput` reported to
the caller rather than silently defaulted. -/
theorem compose_variants : ∀ (u : UserData) (d : DetailData),
    compose (some u) (some d) = Except.ok ParticipantKind.Participant ∧
    compose none (some d) = Except.ok ParticipantKind.Computer ∧
    compose (some u) none = Except.ok ParticipantKind.Observer ∧
    compose none none = Except.error ComposeError.InconsistentInput := by
  intro u d
  exact ⟨rfl, rfl, rfl, rfl⟩

theorem insertionSort_congr_perm {l₁ l₂ : List String} (hp : l₁.Perm l₂) :
    l₁.insertionSort (· ≤ ·) = l₂.insertionSort (· ≤ ·) := by
  refine List.eq_of_perm_of_sorted ?_
    (List.sorted_insertionSort _ _) (List.sorted_insertionSort _ _)
  exact (List.perm_insertionSort _ _).trans (hp.trans (List.perm_insertionSort _ _).symm)

/-- C7: the team content fingerprint — the digest of the members'
profile-url strings sorted lexicographically and joined with `","`,
recomputed from the current member list on every call — is invariant
under the insertion order of two participants. -/
theorem team_hash_order_invariant : ∀ (digest : String → String) (t : Team) (a b : TeamMember),
    Team.hash digest ((t.addPlayer a).addPlayer b) =
      Team.hash digest ((t.addPlayer b).addPlayer a) := by
  intro digest t a b
  unfold Team.hash Team.addPlayer
  apply congrArg digest
  apply congrArg (String.intercalate ",")
  apply insertionSort_congr_perm
  simp only [List.map_append, List.append_assoc]
  exact List.Perm.append_left _ (List.Perm.swap _ _ _)

/-- C8: attribute resolution faults exactly when the attribute id is
known and the normalized raw value is missing from its value table
(python `KeyError` at `objects.py:79`); an unknown id always resolves
to `("Unknown", None)` without raising. -/
theorem attribute_fault_iff : ∀ (β : Type)
    (table : Nat → Option (String × (List Char → Option β)))
    (attr_id : Nat) (value : List Char),
    (attributeResolve table attr_id value = Except.error () ↔
      ∃ nt, table attr_id = some nt ∧ nt.2 (attrKey value) = none) ∧
    (table attr_id = none →
      attributeResolve table attr_id value = Except.ok ("Unknown", none)) := by
  intro β table attr_id value
  constructor
  · cases ht : table attr_id with
    | none => simp [attributeResolve, ht]
    | some nt =>
      cases hv : nt.2 (attrKey value) with
      | none => simp [attributeResolve, ht, hv]
      | some v => simp [attributeResolve, ht, hv]
  · intro ht
    simp [attributeResolve, ht]

/-- C8 (witness): the fault-iff theorem applied to the fixture table —
the unknown id 99 resolves to `("Unknown", None)`, and the known id 1
with a value missing from its table faults. -/
theorem attribute_fault_iff_witness :
    attributeResolve tbl 99 ['x'] = Except.ok ("Unknown", none) ∧
    attributeResolve tbl 1 ['Z'] = Except.error () := by
  constructor
  · exact (attribute_fault_iff Nat tbl 99 ['x']).2 (by simp [tbl])
  · exact (attribute_fault_iff Nat tbl 1 ['Z']).1.mpr
      ⟨("Race", fun k => if k = ['E', 'M'] then some 7 else none), by simp [tbl], by decide⟩

/-- C9: for a known attribute id the raw fixed-width value is
normalized by stripping null/space padding and reversing
(`value.strip("\x00 ")[::-1]`, `objects.py:79`) before the value-table
lookup; in particular the padded raw value `"\x00\x00ME"` goes through
the table key `"EM"`. -/
theorem attribute_reversal_strip : ∀ (β : Type)
    (table : Nat → Option (String × (List Char → Option β)))
    (attr_id : Nat) (nt : String × (List Char → Option β)),
    table attr_id = some nt →
    attrKey ['\x00', '\x00', 'M', 'E'] = ['E', 'M'] ∧
    attributeResolve table attr_id ['\x00', '\x00', 'M', 'E'] =
      (match nt.2 ['E', 'M'] with
       | some v => Except.ok (nt.1, some v)
       | none => Except.error ()) := by
  intro β table attr_id nt ht
  have hkey : attrKey ['\x00', '\x00', 'M', 'E'] = ['E', 'M'] := by decide
  refine ⟨hkey, ?_⟩
  simp [attributeResolve, ht, hkey]

/-- C9 (witness): the normalization theorem applied to the fixture
table, whose value table for id 1 contains the key `"EM"`. -/
theorem attribute_reversal_strip_witness :
    attributeResolve tbl 1 ['\x00', '\x00', 'M', 'E'] = Except.ok ("Race", some 7) := by
  rw [(attribute_reversal_strip Nat tbl 1
    ("Race", fun k => if k = ['E', 'M'] then some 7 else none) (by simp [tbl])).2]
  rfl

/-- C10: in every successfully composed entity, `is_referee` holds
exactly when the raw observe code is 2 and `is_observer` exactly when
it is nonzero, so every referee is also an observer. -/
theorem referee_implies_observer : ∀ (lookup : Nat → String) (sid : Nat)
    (slot : SlotData) (e : Entity),
    Entity.ofSlot lookup sid slot = some e →
    e.is_referee = decide (slot.observe = 2) ∧
    e.is_observer = decide (slot.observe ≠ 0) ∧
    (e.is_referee = true → e.is_observer = true) := by
  intro lookup sid slot e h
  simp only [Entity.ofSlot, Option.bind_eq_bind, Option.bind_eq_some, Option.pure_def,
    Option.some.injEq] at h
  obtain ⟨t, ht, he⟩ := h
  subst he
  refine ⟨rfl, rfl, ?_⟩
  intro hr
  simp only [decide_eq_true_eq] at hr ⊢
  omega

/-- C10 (witness): the referee theorem applied to the referee slot
fixture. -/
theorem referee_implies_observer_witness :
    entRef.is_referee = decide (slotRef.observe = 2) ∧
    entRef.is_observer = decide (slotRef.observe ≠ 0) ∧
    (entRef.is_referee = true → entRef.is_observer = true) :=
  referee_implies_observer (fun _ => "") 5 slotRef entRef (by rfl)

end SC2
